import Mathlib

/-!
Shallow embedding of `src/khal/ui/startendeditor.py`: the `StartEndEditor`
widget's start/end date-time state machine — field validation against the
configured formats, all-day toggling, timezone toggling, and the
`changed` / `validate` queries.  Pure UI work (`rebuild`, widget
construction, focus movement) mutates none of the date/time state and is
not modelled.

Conventions of the embedding:
* a `datetime.date` is its proleptic-Gregorian day ordinal (an `Int`,
  as Python's `date.toordinal`);
* a naive `datetime.datetime` is its wall-clock minute count
  `ordinal * 1440 + minute-of-day` (the sources only combine, split,
  compare and shift datetimes at minute granularity, since the parse
  formats are date and `%H:%M` time formats);
* a pytz timezone is an identifier plus a fixed UTC offset in minutes;
  the editor only attaches zones (`localize`) and converts between them
  (`astimezone`), and every claim depends only on offset arithmetic;
* `datetime.strptime(text, fmt)` is Python-library code, not repository
  code: each validator takes the outcome of that call as an
  `Option Int` argument (`none` for a `ValueError`, `some v` for the
  parsed naive datetime), which is exactly how the validators consume it;
* an exception escaping a statement aborts the remaining statements of
  the method, leaving the fields assigned so far in place.
-/

/-- A pytz timezone, reduced to an identifier and a fixed UTC offset in
minutes east of UTC.  DST offset variation is not modelled: the editor
only ever localizes fresh naive datetimes and converts aware ones, and
the claims under verification depend only on offset arithmetic. -/
structure Tz where
  id : Nat
  offset : Int
deriving DecidableEq, Repr

/-- A value stored in the editor's `_startdt` / `_enddt` slots: either a
`datetime.date` (day ordinal) or a `datetime.datetime`, which is naive or
pytz-aware; datetimes carry wall-clock minutes since the epoch of day 0. -/
inductive Moment where
  | date (d : Int)
  | naive (m : Int)
  | aware (m : Int) (tz : Tz)
deriving DecidableEq, Repr

namespace Moment

/-- Python `isinstance(x, datetime)`. -/
def isDatetime : Moment → Bool
  | .date _ => false
  | .naive _ => true
  | .aware _ _ => true

/-- The `.date()` method.  A `datetime.date` object has no `.date()`
method, so calling it raises `AttributeError`, modelled as `none`. -/
def dateMethod : Moment → Option Int
  | .date _ => none
  | .naive m => some (m / 1440)
  | .aware m _ => some (m / 1440)

/-- The date part of a value accepted by `datetime.combine`, whose first
argument may be a `date` or a `datetime` (a subclass of `date`); for a
datetime its date component is used. -/
def dateComponent : Moment → Int
  | .date d => d
  | .naive m => m / 1440
  | .aware m _ => m / 1440

/-- The `.time()` method (wall-clock minute of day); raises
`AttributeError` on a `date`, modelled as `none`. -/
def timeMethod : Moment → Option Int
  | .date _ => none
  | .naive m => some (m % 1440)
  | .aware m _ => some (m % 1440)

/-- Python `getattr(x, 'tzinfo', None)`: a `date` has no `tzinfo`
attribute and a naive datetime has `tzinfo = None`. -/
def tzinfo : Moment → Option Tz
  | .aware _ tz => some tz
  | _ => none

/-- The `datetime.combine(d, t)` call: a naive datetime from the date part of `d`
and a time-of-day `t` (minutes). -/
def combine (d : Moment) (t : Int) : Moment :=
  .naive (d.dateComponent * 1440 + t)

/-- The `aware.astimezone(tz2)` call: instant-preserving change of zone.  `none`
models the cases the program cannot rely on: a `date` has no
`astimezone` (AttributeError), and a naive datetime's conversion is
interpreted in the machine's local timezone, outside this program. -/
def astimezone : Moment → Tz → Option Moment
  | .aware m tz, tz2 => some (.aware (m - tz.offset + tz2.offset) tz2)
  | _, _ => none

/-- The absolute point in time of an aware datetime, in UTC minutes. -/
def instant : Moment → Option Int
  | .aware m tz => some (m - tz.offset)
  | _ => none

/-- Python `==` on these values: dates compare by ordinal, naive
datetimes by wall clock, aware datetimes by instant; values of mixed
kinds (date vs datetime, naive vs aware) compare unequal. -/
def pyEq : Moment → Moment → Bool
  | .date a, .date b => decide (a = b)
  | .naive a, .naive b => decide (a = b)
  | .aware a ta, .aware b tb => decide (a - ta.offset = b - tb.offset)
  | _, _ => false

/-- Python `<=` on these values: defined within a kind (ordinal order on
dates, wall-clock order on naive datetimes, instant order on aware
ones); comparing mixed kinds raises `TypeError`, modelled as `none`. -/
def pyLe : Moment → Moment → Option Bool
  | .date a, .date b => some (decide (a ≤ b))
  | .naive a, .naive b => some (decide (a ≤ b))
  | .aware a ta, .aware b tb => some (decide (a - ta.offset ≤ b - tb.offset))
  | _, _ => none

/-- Whether Python may order-compare the two values (same kind and same
awareness); exactly when `pyLe` does not raise. -/
def comparable : Moment → Moment → Bool
  | .date _, .date _ => true
  | .naive _, .naive _ => true
  | .aware _ _, .aware _ _ => true
  | _, _ => false

/-- The key realising Python's order on comparable values: ordinal for
dates, wall clock for naive datetimes, UTC instant for aware ones. -/
def cmpKey : Moment → Int
  | .date d => d
  | .naive m => m
  | .aware m tz => m - tz.offset

end Moment

/-- pytz `tz.localize(naive_dt)`: attach the zone, keeping the wall
clock.  The editor only applies it to freshly combined naive datetimes. -/
def Tz.localize (tz : Tz) (m : Int) : Moment :=
  .aware m tz

/-- Day ordinal of a proleptic-Gregorian calendar date, as Python's
`date(y, m, d).toordinal()` (0001-01-01 is day 1); used to write
concrete dates in the theorems below. -/
def toordinal (y m d : Nat) : Int :=
  let leap : Bool := (y % 4 == 0 && y % 100 != 0) || (y % 400 == 0)
  let before : Nat :=
    [0, 31, 59, 90, 120, 151, 181, 212, 243, 273, 304, 334].getD (m - 1) 0
  let before : Nat := if 2 < m && leap then before + 1 else before
  Int.ofNat (365 * (y - 1) + (y - 1) / 4 + (y - 1) / 400 + before + d)
    - Int.ofNat ((y - 1) / 100)

/-- The date/time state of a `StartEndEditor` instance: the raw
`_startdt` / `_enddt` slots, the two booleans, the construction-time
snapshots, and the configured default timezone
(`conf['locale']['default_timezone']`).  The configured format strings
matter only through `strptime`, which the validators take as an oracle
argument, and the widget fields are pure UI. -/
structure StartEndEditor where
  allday : Bool
  _tz_state : Bool
  _startdt : Moment
  _enddt : Moment
  _original_start : Moment
  _original_end : Moment
  default_timezone : Tz
deriving DecidableEq, Repr

namespace StartEndEditor

/-- The `__init__` of `StartEndEditor`: `allday` is set iff `start` is
not a `datetime`, the raw slots and the original snapshots are the
arguments verbatim, and the timezone chooser starts hidden. -/
def init (start endm : Moment) (dtz : Tz) : StartEndEditor :=
  { allday := !start.isDatetime
    _tz_state := false
    _startdt := start
    _enddt := endm
    _original_start := start
    _original_end := endm
    default_timezone := dtz }

/-- The `startdt` property: project the raw value to its date in all-day
mode (when it is a datetime), otherwise return it as stored. -/
def startdt (s : StartEndEditor) : Moment :=
  if s.allday && s._startdt.isDatetime then .date s._startdt.dateComponent
  else s._startdt

/-- The `enddt` property, symmetric to `startdt`. -/
def enddt (s : StartEndEditor) : Moment :=
  if s.allday && s._enddt.isDatetime then .date s._enddt.dateComponent
  else s._enddt

/-- The `_start_time` property: `.time()` of the raw start, with the
`AttributeError` of a date caught and defaulted to `time(0)` (midnight). -/
def _start_time (s : StartEndEditor) : Int :=
  (s._startdt.timeMethod).getD 0

/-- The `_end_time` property, symmetric to `_start_time`. -/
def _end_time (s : StartEndEditor) : Int :=
  (s._enddt.timeMethod).getD 0

/-- The `timezone_start` property: the tzinfo of the *projected*
`startdt` when present, else the configured default timezone. -/
def timezone_start (s : StartEndEditor) : Tz :=
  (s.startdt.tzinfo).getD s.default_timezone

/-- The `timezone_end` property, symmetric to `timezone_start`. -/
def timezone_end (s : StartEndEditor) : Tz :=
  (s.enddt.tzinfo).getD s.default_timezone

/-- Outcome of a field validation: `invalid` is the `return False` taken
on a `strptime` `ValueError` (the spec's `InvalidFormat` signal), `ok v`
returns the parsed datetime, and `error` is an uncaught exception
escaping the method. -/
inductive VResult where
  | invalid
  | ok (v : Int)
  | error
deriving DecidableEq, Repr

/-- Method `_validate_start_time`.  Argument `parsed` is the outcome of
`datetime.strptime(text, timeformat)`.  On success the code evaluates
`self._startdt.date()` — an `AttributeError` when the raw start is a
date, uncaught by the `except ValueError` — then combines it with the
parsed time-of-day and localizes with `timezone_start`. -/
def _validate_start_time (s : StartEndEditor) (parsed : Option Int) :
    VResult × StartEndEditor :=
  match parsed with
  | none => (.invalid, s)
  | some v =>
    match s._startdt.dateMethod with
    | none => (.error, s)
    | some d =>
      (.ok v, { s with _startdt := (s.timezone_start).localize (d * 1440 + v % 1440) })

/-- Method `_validate_start_date`.  Argument `parsed` is the outcome of
`datetime.strptime(text, longdateformat)`.  On success the parsed date is
combined with `_start_time` and localized with `timezone_start`. -/
def _validate_start_date (s : StartEndEditor) (parsed : Option Int) :
    VResult × StartEndEditor :=
  match parsed with
  | none => (.invalid, s)
  | some v =>
    (.ok v, { s with _startdt := (s.timezone_start).localize (v / 1440 * 1440 + s._start_time) })

/-- Method `_validate_end_time`, symmetric to `_validate_start_time` on the end
slot (combining `self._enddt.date()` with the parsed time and localizing
with `timezone_end`). -/
def _validate_end_time (s : StartEndEditor) (parsed : Option Int) :
    VResult × StartEndEditor :=
  match parsed with
  | none => (.invalid, s)
  | some v =>
    match s._enddt.dateMethod with
    | none => (.error, s)
    | some d =>
      (.ok v, { s with _enddt := (s.timezone_end).localize (d * 1440 + v % 1440) })

/-- Method `_validate_end_date`, symmetric to `_validate_start_date` on the end
slot. -/
def _validate_end_date (s : StartEndEditor) (parsed : Option Int) :
    VResult × StartEndEditor :=
  match parsed with
  | none => (.invalid, s)
  | some v =>
    (.ok v, { s with _enddt := (s.timezone_end).localize (v / 1440 * 1440 + s._end_time) })

/-- Method `toggle_allday` (the unused checkbox argument is dropped).  All-day
to timed combines both raw slots with `datetime.min.time()` (midnight);
timed to all-day truncates both via `.date()` — where an
`AttributeError` aborts the method, leaving the assignments made so far
in place and `allday` unset; otherwise `allday := state`. -/
def toggle_allday (s : StartEndEditor) (state : Bool) : StartEndEditor :=
  if s.allday && !state then
    let s1 := { s with _startdt := s._startdt.combine 0 }
    let s2 := { s1 with _enddt := s1._enddt.combine 0 }
    { s2 with allday := state }
  else if !s.allday && state then
    match s._startdt.dateMethod with
    | none => s
    | some d =>
      let s1 := { s with _startdt := .date d }
      match s1._enddt.dateMethod with
      | none => s1
      | some e => { s1 with _enddt := .date e, allday := state }
  else
    { s with allday := state }

/-- Method `toggle_tz` (the unused checkbox argument is dropped).  Showing the
chooser converts both slots into the chosen zone; hiding it converts
both into the default timezone.  The source's `_get_chosen_timezone` is
an unimplemented stub (a debugger breakpoint), so the chosen zone is the
explicit argument `chosen`, per the spec's injected-selection design.  A
failing `astimezone` aborts the method, leaving earlier assignments in
place and `_tz_state` unset. -/
def toggle_tz (s : StartEndEditor) (chosen : Tz) (state : Bool) : StartEndEditor :=
  if !s._tz_state && state then
    match s._startdt.astimezone chosen with
    | none => s
    | some st =>
      let s1 := { s with _startdt := st }
      match s1._enddt.astimezone chosen with
      | none => s1
      | some en => { s1 with _enddt := en, _tz_state := state }
  else if s._tz_state && !state then
    match s._startdt.astimezone s.default_timezone with
    | none => s
    | some st =>
      let s1 := { s with _startdt := st }
      match s1._enddt.astimezone s.default_timezone with
      | none => s1
      | some en => { s1 with _enddt := en, _tz_state := state }
  else
    { s with _tz_state := state }

/-- The `changed` property: the projected start or end differs
(Python `!=`) from the verbatim construction-time snapshot. -/
def changed (s : StartEndEditor) : Bool :=
  !(s.startdt.pyEq s._original_start) || !(s.enddt.pyEq s._original_end)

/-- The `validate` method: `self.startdt <= self.enddt`, with `none`
modelling the `TypeError` Python raises on comparing mixed kinds. -/
def validate (s : StartEndEditor) : Option Bool :=
  s.startdt.pyLe s.enddt

/-- One user-visible mutation of the editor state: a field validation
(carrying its `strptime` outcome) or one of the two toggles (the
timezone toggle carrying the externally chosen zone). -/
inductive Op where
  | vStartTime (p : Option Int)
  | vStartDate (p : Option Int)
  | vEndTime (p : Option Int)
  | vEndDate (p : Option Int)
  | tAllday (b : Bool)
  | tTz (z : Tz) (b : Bool)
deriving DecidableEq, Repr

/-- Apply one operation to the state (the state after the call, whether
it returned normally or raised). -/
def applyOp (s : StartEndEditor) : Op → StartEndEditor
  | .vStartTime p => (_validate_start_time s p).2
  | .vStartDate p => (_validate_start_date s p).2
  | .vEndTime p => (_validate_end_time s p).2
  | .vEndDate p => (_validate_end_date s p).2
  | .tAllday b => toggle_allday s b
  | .tTz z b => toggle_tz s z b

/-- Apply a sequence of operations in order. -/
def applyOps (s : StartEndEditor) : List Op → StartEndEditor
  | [] => s
  | o :: rest => applyOps (applyOp s o) rest

/-- The editor state after running `ops` from a freshly constructed
editor. -/
def runOps (start endm : Moment) (dtz : Tz) (ops : List Op) : StartEndEditor :=
  applyOps (init start endm dtz) ops

/-- The kind discipline the widget relies on: whenever the editor is in
timed mode, both raw slots hold datetimes. -/
def kindsOk (s : StartEndEditor) : Bool :=
  s.allday || (s._startdt.isDatetime && s._enddt.isDatetime)

end StartEndEditor

-- sanity checks: the Int division convention matches Python's floor
-- division for the positive divisor 1440, and toordinal matches Python
example : ((-1 : Int) / 1440 = -1) := by decide
example : ((-1 : Int) % 1440 = 1439) := by decide
example : toordinal 2024 3 1 = 738946 := by decide
example : toordinal 2024 2 28 = 738944 := by decide
example : toordinal 1 1 1 = 1 := by decide

open StartEndEditor

/-- Python equality is reflexive on these values. -/
lemma Moment.pyEq_refl (m : Moment) : m.pyEq m = true := by
  cases m <;> simp [Moment.pyEq]

/-- A datetime's `.date()` method returns its date component. -/
lemma Moment.dateMethod_of_isDatetime {m : Moment} (h : m.isDatetime = true) :
    m.dateMethod = some m.dateComponent := by
  cases m <;> simp_all [Moment.isDatetime, Moment.dateMethod, Moment.dateComponent]

/-- A successful `astimezone` yields a (tz-aware) datetime. -/
lemma Moment.astimezone_isDatetime {m m' : Moment} {z : Tz}
    (h : m.astimezone z = some m') : m'.isDatetime = true := by
  cases m <;> simp_all [Moment.astimezone, Moment.isDatetime]
  subst h; rfl

/-- A date-only value has neither a time-of-day nor an attached zone. -/
lemma Moment.dateonly_fields {m : Moment} (h : m.isDatetime = false) :
    m.timeMethod = none ∧ m.tzinfo = none := by
  cases m <;> simp_all [Moment.isDatetime, Moment.timeMethod, Moment.tzinfo]

/-- The stored or defaulted start time-of-day is a valid minute of day. -/
lemma start_time_bounds (s : StartEndEditor) :
    0 ≤ s._start_time ∧ s._start_time < 1440 := by
  rcases h : s._startdt with d | m | ⟨m, tz⟩ <;>
    simp [_start_time, Moment.timeMethod, h] <;> omega

/-- The stored or defaulted end time-of-day is a valid minute of day. -/
lemma end_time_bounds (s : StartEndEditor) :
    0 ≤ s._end_time ∧ s._end_time < 1440 := by
  rcases h : s._enddt with d | m | ⟨m, tz⟩ <;>
    simp [_end_time, Moment.timeMethod, h] <;> omega

/-- In all-day mode the projected start is date-only. -/
lemma startdt_of_allday {s : StartEndEditor} (h : s.allday = true) :
    (startdt s).isDatetime = false := by
  rcases hm : s._startdt with d | m | ⟨m, tz⟩ <;>
    simp [startdt, h, hm, Moment.isDatetime]

/-- In all-day mode the projected end is date-only. -/
lemma enddt_of_allday {s : StartEndEditor} (h : s.allday = true) :
    (enddt s).isDatetime = false := by
  rcases hm : s._enddt with d | m | ⟨m, tz⟩ <;>
    simp [enddt, h, hm, Moment.isDatetime]

/-- In timed mode the projected start is the raw slot. -/
lemma startdt_of_timed {s : StartEndEditor} (h : s.allday = false) :
    startdt s = s._startdt := by
  simp [startdt, h]

/-- In timed mode the projected end is the raw slot. -/
lemma enddt_of_timed {s : StartEndEditor} (h : s.allday = false) :
    enddt s = s._enddt := by
  simp [enddt, h]

/-- C1: for every input string that does not parse against the
configured format (a `strptime` `ValueError`, oracle outcome `none`),
each of the four field validators returns the failure signal
(`VResult.invalid`, the spec's `InvalidFormat`) and leaves the whole
editor state — in particular both stored moments — unchanged. -/
theorem C1_invalid_format_is_noop (s : StartEndEditor) :
    _validate_start_date s none = (.invalid, s) ∧
    _validate_start_time s none = (.invalid, s) ∧
    _validate_end_date s none = (.invalid, s) ∧
    _validate_end_time s none = (.invalid, s) :=
  ⟨rfl, rfl, rfl, rfl⟩

/-- C9: toggling all-day to the current `allday` value, and toggling
timezone visibility to the current `_tz_state` value (with any chosen
zone), are both complete no-ops on the stored state. -/
theorem C9_toggle_noop (s : StartEndEditor) (z : Tz) :
    toggle_allday s s.allday = s ∧ toggle_tz s z s._tz_state = s := by
  obtain ⟨a, t, sd, ed, os, oe, dz⟩ := s
  refine ⟨?_, ?_⟩
  · cases a <;> rfl
  · cases t <;> rfl

/-- Agreement on every field except the raw start slot. -/
def agreesExceptStart (s t : StartEndEditor) : Prop :=
  t._enddt = s._enddt ∧ t.allday = s.allday ∧ t._tz_state = s._tz_state ∧
  t._original_start = s._original_start ∧ t._original_end = s._original_end ∧
  t.default_timezone = s.default_timezone

/-- Agreement on every field except the raw end slot. -/
def agreesExceptEnd (s t : StartEndEditor) : Prop :=
  t._startdt = s._startdt ∧ t.allday = s.allday ∧ t._tz_state = s._tz_state ∧
  t._original_start = s._original_start ∧ t._original_end = s._original_end ∧
  t.default_timezone = s.default_timezone

/-- C10: whatever the parse outcome (success, failure or the uncaught
error), the start-field validators mutate at most the raw start slot and
the end-field validators at most the raw end slot; the other moment, the
`allday` and `_tz_state` flags, both original snapshots and the default
timezone are untouched. -/
theorem C10_validators_frame (s : StartEndEditor) (p : Option Int) :
    agreesExceptStart s (_validate_start_time s p).2 ∧
    agreesExceptStart s (_validate_start_date s p).2 ∧
    agreesExceptEnd s (_validate_end_time s p).2 ∧
    agreesExceptEnd s (_validate_end_date s p).2 := by
  obtain _ | v := p
  · exact ⟨⟨rfl, rfl, rfl, rfl, rfl, rfl⟩, ⟨rfl, rfl, rfl, rfl, rfl, rfl⟩,
      ⟨rfl, rfl, rfl, rfl, rfl, rfl⟩, ⟨rfl, rfl, rfl, rfl, rfl, rfl⟩⟩
  · refine ⟨?_, ?_, ?_, ?_⟩
    · rcases hd : s._startdt.dateMethod with _ | d <;>
        simp [agreesExceptStart, _validate_start_time, hd]
    · simp [agreesExceptStart, _validate_start_date]
    · rcases hd : s._enddt.dateMethod with _ | d <;>
        simp [agreesExceptEnd, _validate_end_time, hd]
    · simp [agreesExceptEnd, _validate_end_date]

/-- C5: `changed` is false immediately after construction from a
kind-consistent pair, and in general it is true exactly when the
projected start differs (Python inequality) from the verbatim original
start snapshot or the projected end differs from the original end
snapshot. -/
theorem C5_changed_semantics :
    (∀ (start endm : Moment) (dtz : Tz), start.isDatetime = endm.isDatetime →
      changed (init start endm dtz) = false) ∧
    (∀ s : StartEndEditor, changed s = true ↔
      ((startdt s).pyEq s._original_start = false ∨
       (enddt s).pyEq s._original_end = false)) := by
  constructor
  · intro start endm dtz hwf
    have hs : startdt (init start endm dtz) = start := by
      cases start <;> simp [init, startdt, Moment.isDatetime]
    have he : enddt (init start endm dtz) = endm := by
      cases start <;> cases endm <;>
        simp_all [init, enddt, Moment.isDatetime]
    simp only [changed]
    rw [hs, he]
    simp [init, Moment.pyEq_refl]
  · intro s
    cases hA : (startdt s).pyEq s._original_start <;>
      cases hB : (enddt s).pyEq s._original_end <;>
        simp [changed, hA, hB]

/-- C2: validating the start-date field with a string that parses
(oracle outcome `some v`) succeeds and returns the parsed value; the new
start is stored with the parsed date as its date component, with the
time-of-day `_start_time` held before the edit (which is the raw start's
time-of-day, defaulting to midnight when the raw start has none), and
with the zone `timezone_start` in effect before the edit (the projected
start's own zone, defaulting to the configured default timezone when it
has none). -/
theorem C2_start_date_success (s : StartEndEditor) (v : Int) :
    (_validate_start_date s (some v)).1 = .ok v ∧
    (_validate_start_date s (some v)).2._startdt.dateComponent = v / 1440 ∧
    (_validate_start_date s (some v)).2._startdt.timeMethod = some s._start_time ∧
    (_validate_start_date s (some v)).2._startdt.tzinfo = some s.timezone_start ∧
    (s._startdt.timeMethod = none → s._start_time = 0) ∧
    (s.startdt.tzinfo = none → s.timezone_start = s.default_timezone) := by
  obtain ⟨ht0, ht1⟩ := start_time_bounds s
  refine ⟨rfl, ?_, ?_, rfl, ?_, ?_⟩
  · simp only [_validate_start_date, Tz.localize, Moment.dateComponent]
    omega
  · simp only [_validate_start_date, Tz.localize, Moment.timeMethod,
      Option.some_inj]
    omega
  · intro h; simp [_start_time, h]
  · intro h; simp [timezone_start, h]

/-- On comparable values Python's order is the order of the comparison
keys. -/
lemma Moment.pyLe_of_comparable {a b : Moment} (h : a.comparable b = true) :
    a.pyLe b = some (decide (a.cmpKey ≤ b.cmpKey)) := by
  cases a <;> cases b <;>
    simp_all [Moment.comparable, Moment.pyLe, Moment.cmpKey]

/-- On comparable values Python equality is equality of the comparison
keys. -/
lemma Moment.pyEq_iff_cmpKey {a b : Moment} (h : a.comparable b = true) :
    a.pyEq b = true ↔ a.cmpKey = b.cmpKey := by
  cases a <;> cases b <;>
    simp_all [Moment.comparable, Moment.pyEq, Moment.cmpKey]

/-- C6: whenever the projected start and end are of the same
representation kind (as the toggles maintain), `validate` returns the
truth value of start not after end under that representation — ordinal
order on dates in all-day mode, instant order on aware datetimes;
in particular it returns true when they are (Python-)equal and false
when start is strictly after end. -/
theorem C6_validate_semantics (s : StartEndEditor)
    (h : (startdt s).comparable (enddt s) = true) :
    validate s = some (decide ((startdt s).cmpKey ≤ (enddt s).cmpKey)) ∧
    ((startdt s).pyEq (enddt s) = true → validate s = some true) ∧
    ((enddt s).cmpKey < (startdt s).cmpKey → validate s = some false) := by
  refine ⟨Moment.pyLe_of_comparable h, ?_, ?_⟩
  · intro he
    rw [validate, Moment.pyLe_of_comparable h]
    have := (Moment.pyEq_iff_cmpKey h).1 he
    simp [this]
  · intro hlt
    rw [validate, Moment.pyLe_of_comparable h]
    simp [decide_eq_false_iff_not]
    omega

/-- Witness for C6 at the spec's concrete scenario: an all-day editor
with start 2024-03-01 and end 2024-02-28 is reported invalid. -/
theorem C6_validate_semantics_witness :
    validate (init (.date (toordinal 2024 3 1)) (.date (toordinal 2024 2 28)) ⟨0, 60⟩) =
      some false :=
  (C6_validate_semantics
    (init (.date (toordinal 2024 3 1)) (.date (toordinal 2024 2 28)) ⟨0, 60⟩)
    (by decide)).2.2 (by decide)

/-- Toggling a well-formed timed editor to all-day truncates both raw
slots to their date components and sets the flag. -/
lemma toggle_allday_to_allday {s : StartEndEditor} (h0 : s.allday = false)
    (h1 : s._startdt.isDatetime = true) (h2 : s._enddt.isDatetime = true) :
    toggle_allday s true =
      { s with _startdt := .date s._startdt.dateComponent,
               _enddt := .date s._enddt.dateComponent,
               allday := true } := by
  simp [toggle_allday, h0, Moment.dateMethod_of_isDatetime h1,
    Moment.dateMethod_of_isDatetime h2]

/-- Toggling an all-day editor to timed recombines both raw slots with
midnight and clears the flag. -/
lemma toggle_allday_to_timed {s : StartEndEditor} (h0 : s.allday = true) :
    toggle_allday s false =
      { s with _startdt := s._startdt.combine 0,
               _enddt := s._enddt.combine 0,
               allday := false } := by
  simp [toggle_allday, h0]

/-- C7: from any well-formed timed state, toggling to all-day and back
to timed yields start and end datetimes whose date components are the
pre-toggle date components and whose time-of-day is midnight, whatever
times-of-day were held before — the round trip truncates, it does not
restore. -/
theorem C7_allday_roundtrip_lossy (s : StartEndEditor) (h0 : s.allday = false)
    (h1 : s._startdt.isDatetime = true) (h2 : s._enddt.isDatetime = true) :
    (toggle_allday (toggle_allday s true) false)._startdt.dateComponent =
      s._startdt.dateComponent ∧
    (toggle_allday (toggle_allday s true) false)._startdt.timeMethod = some 0 ∧
    (toggle_allday (toggle_allday s true) false)._enddt.dateComponent =
      s._enddt.dateComponent ∧
    (toggle_allday (toggle_allday s true) false)._enddt.timeMethod = some 0 ∧
    (toggle_allday (toggle_allday s true) false).allday = false := by
  rw [toggle_allday_to_allday h0 h1 h2]
  rw [toggle_allday_to_timed rfl]
  refine ⟨?_, ?_, ?_, ?_, rfl⟩ <;>
    simp [Moment.combine, Moment.dateComponent, Moment.timeMethod]

/-- Witness for C7: a timed editor over 2024-01-01 09:00 / 2024-01-01
10:30 (naive) comes back from the all-day round trip at midnight of the
same dates. -/
theorem C7_allday_roundtrip_lossy_witness :
    (toggle_allday (toggle_allday
        (init (.naive (toordinal 2024 1 1 * 1440 + 540))
              (.naive (toordinal 2024 1 1 * 1440 + 630)) ⟨0, 60⟩) true) false)._startdt.dateComponent =
      (init (.naive (toordinal 2024 1 1 * 1440 + 540))
            (.naive (toordinal 2024 1 1 * 1440 + 630)) ⟨0, 60⟩)._startdt.dateComponent ∧
    (toggle_allday (toggle_allday
        (init (.naive (toordinal 2024 1 1 * 1440 + 540))
              (.naive (toordinal 2024 1 1 * 1440 + 630)) ⟨0, 60⟩) true) false)._startdt.timeMethod = some 0 ∧
    (toggle_allday (toggle_allday
        (init (.naive (toordinal 2024 1 1 * 1440 + 540))
              (.naive (toordinal 2024 1 1 * 1440 + 630)) ⟨0, 60⟩) true) false)._enddt.dateComponent =
      (init (.naive (toordinal 2024 1 1 * 1440 + 540))
            (.naive (toordinal 2024 1 1 * 1440 + 630)) ⟨0, 60⟩)._enddt.dateComponent ∧
    (toggle_allday (toggle_allday
        (init (.naive (toordinal 2024 1 1 * 1440 + 540))
              (.naive (toordinal 2024 1 1 * 1440 + 630)) ⟨0, 60⟩) true) false)._enddt.timeMethod = some 0 ∧
    (toggle_allday (toggle_allday
        (init (.naive (toordinal 2024 1 1 * 1440 + 540))
              (.naive (toordinal 2024 1 1 * 1440 + 630)) ⟨0, 60⟩) true) false).allday = false :=
  C7_allday_roundtrip_lossy
    (init (.naive (toordinal 2024 1 1 * 1440 + 540))
          (.naive (toordinal 2024 1 1 * 1440 + 630)) ⟨0, 60⟩)
    (by decide) (by decide) (by decide)

/-- A concrete all-day editor (start 2024-03-01, end 2024-03-02, default
zone offset +60), used as input of several witnesses. -/
def alldayEditor : StartEndEditor :=
  init (.date (toordinal 2024 3 1)) (.date (toordinal 2024 3 2)) ⟨0, 60⟩

/-- Witness for C2: validating the start-date of the all-day editor with
the parsed date 2024-05-05 succeeds, stores that date with midnight
(the defaulted time-of-day) and the default timezone (the defaulted
zone), and the defaulting hypotheses hold at this input. -/
theorem C2_start_date_success_witness :
    (_validate_start_date alldayEditor (some (toordinal 2024 5 5 * 1440))).1 =
      .ok (toordinal 2024 5 5 * 1440) ∧
    (_validate_start_date alldayEditor (some (toordinal 2024 5 5 * 1440))).2._startdt.dateComponent =
      toordinal 2024 5 5 * 1440 / 1440 ∧
    (_validate_start_date alldayEditor (some (toordinal 2024 5 5 * 1440))).2._startdt.timeMethod =
      some alldayEditor._start_time ∧
    (_validate_start_date alldayEditor (some (toordinal 2024 5 5 * 1440))).2._startdt.tzinfo =
      some alldayEditor.timezone_start ∧
    alldayEditor._start_time = 0 ∧
    alldayEditor.timezone_start = alldayEditor.default_timezone :=
  ⟨(C2_start_date_success alldayEditor (toordinal 2024 5 5 * 1440)).1,
   (C2_start_date_success alldayEditor (toordinal 2024 5 5 * 1440)).2.1,
   (C2_start_date_success alldayEditor (toordinal 2024 5 5 * 1440)).2.2.1,
   (C2_start_date_success alldayEditor (toordinal 2024 5 5 * 1440)).2.2.2.1,
   (C2_start_date_success alldayEditor (toordinal 2024 5 5 * 1440)).2.2.2.2.1 (by decide),
   (C2_start_date_success alldayEditor (toordinal 2024 5 5 * 1440)).2.2.2.2.2 (by decide)⟩

/-- Witness for C5: the freshly constructed all-day editor reports no
change. -/
theorem C5_changed_semantics_witness :
    changed (init (.date (toordinal 2024 3 1)) (.date (toordinal 2024 3 2)) ⟨0, 60⟩) = false :=
  C5_changed_semantics.1 (.date (toordinal 2024 3 1)) (.date (toordinal 2024 3 2)) ⟨0, 60⟩
    (by decide)

/-- C8: from any state with timezone-aware start and end and the chooser
hidden, showing the timezone chooser (converting into the externally
chosen zone) and hiding it again (converting into the default timezone)
preserves the UTC instant of both stored moments. -/
theorem C8_tz_roundtrip_preserves_instant (s : StartEndEditor) (chosen : Tz)
    (h0 : s._tz_state = false) (a b : Int) (ta tb : Tz)
    (hs : s._startdt = .aware a ta) (he : s._enddt = .aware b tb) :
    (toggle_tz (toggle_tz s chosen true) chosen false)._startdt.instant =
      s._startdt.instant ∧
    (toggle_tz (toggle_tz s chosen true) chosen false)._enddt.instant =
      s._enddt.instant := by
  simp [toggle_tz, h0, hs, he, Moment.astimezone, Moment.instant]

/-- Witness for C8, at the spec's example: start 2024-01-01 09:00 in a
zone at UTC-05:00 (America/New_York in January), converted to UTC+01:00
(Europe/Paris) and back to the default zone UTC-05:00, keeps its
instant; likewise the end at 10:00. -/
theorem C8_tz_roundtrip_preserves_instant_witness :
    (toggle_tz (toggle_tz
        (init (.aware (toordinal 2024 1 1 * 1440 + 540) ⟨0, -300⟩)
              (.aware (toordinal 2024 1 1 * 1440 + 600) ⟨0, -300⟩) ⟨0, -300⟩)
        ⟨1, 60⟩ true) ⟨1, 60⟩ false)._startdt.instant =
      (init (.aware (toordinal 2024 1 1 * 1440 + 540) ⟨0, -300⟩)
            (.aware (toordinal 2024 1 1 * 1440 + 600) ⟨0, -300⟩) ⟨0, -300⟩)._startdt.instant ∧
    (toggle_tz (toggle_tz
        (init (.aware (toordinal 2024 1 1 * 1440 + 540) ⟨0, -300⟩)
              (.aware (toordinal 2024 1 1 * 1440 + 600) ⟨0, -300⟩) ⟨0, -300⟩)
        ⟨1, 60⟩ true) ⟨1, 60⟩ false)._enddt.instant =
      (init (.aware (toordinal 2024 1 1 * 1440 + 540) ⟨0, -300⟩)
            (.aware (toordinal 2024 1 1 * 1440 + 600) ⟨0, -300⟩) ⟨0, -300⟩)._enddt.instant :=
  C8_tz_roundtrip_preserves_instant
    (init (.aware (toordinal 2024 1 1 * 1440 + 540) ⟨0, -300⟩)
          (.aware (toordinal 2024 1 1 * 1440 + 600) ⟨0, -300⟩) ⟨0, -300⟩)
    ⟨1, 60⟩ rfl (toordinal 2024 1 1 * 1440 + 540) (toordinal 2024 1 1 * 1440 + 600)
    ⟨0, -300⟩ ⟨0, -300⟩ rfl rfl

/-- A value with no time-of-day is a `datetime.date`. -/
lemma Moment.eq_date_of_not_datetime {m : Moment} (h : m.isDatetime = false) :
    ∃ d, m = .date d := by
  cases m with
  | date d => exact ⟨d, rfl⟩
  | naive m => simp [Moment.isDatetime] at h
  | aware m tz => simp [Moment.isDatetime] at h

/-- C3 counterexample: on the concrete all-day editor (both moments
date-only, hence without a time-of-day), validating the start-time field
with a string that parses as 09:00 does not return the failure signal
and does not store midnight: it fails with an uncaught `AttributeError`
(the `except ValueError` does not catch the `.date()` call failing on a
`datetime.date`). -/
theorem C3_counterexample :
    (_validate_start_time alldayEditor (some 540)).1 = VResult.error := by
  decide

/-- C3 as amended: when the moment being edited has no time-of-day, a
time-field validation with a non-parsing string still returns the
failure signal and leaves the state unchanged, but with a string that
parses it raises an uncaught error (state still unchanged) instead of
defaulting the time-of-day to midnight; the midnight default applies to
the date-field validations, which store the recombined moment with
time-of-day midnight. -/
theorem C3_time_validation_on_dateonly (s : StartEndEditor) (v : Int)
    (hs : s._startdt.isDatetime = false) (he : s._enddt.isDatetime = false) :
    _validate_start_time s none = (.invalid, s) ∧
    _validate_start_time s (some v) = (.error, s) ∧
    _validate_end_time s none = (.invalid, s) ∧
    _validate_end_time s (some v) = (.error, s) ∧
    (_validate_start_date s (some v)).2._startdt.timeMethod = some 0 ∧
    (_validate_end_date s (some v)).2._enddt.timeMethod = some 0 := by
  obtain ⟨d, hd⟩ := Moment.eq_date_of_not_datetime hs
  obtain ⟨e, hee⟩ := Moment.eq_date_of_not_datetime he
  refine ⟨rfl, ?_, rfl, ?_, ?_, ?_⟩
  · simp [_validate_start_time, hd, Moment.dateMethod]
  · simp [_validate_end_time, hee, Moment.dateMethod]
  · simp only [_validate_start_date, Tz.localize, Moment.timeMethod,
      _start_time, hd, Moment.dateMethod, Option.getD_none, Option.some_inj]
    omega
  · simp only [_validate_end_date, Tz.localize, Moment.timeMethod,
      _end_time, hee, Moment.dateMethod, Option.getD_none, Option.some_inj]
    omega

/-- Witness for the amended C3 on the concrete all-day editor with the
parsed time 09:00. -/
theorem C3_time_validation_on_dateonly_witness :
    _validate_start_time alldayEditor none = (.invalid, alldayEditor) ∧
    _validate_start_time alldayEditor (some 540) = (.error, alldayEditor) ∧
    _validate_end_time alldayEditor none = (.invalid, alldayEditor) ∧
    _validate_end_time alldayEditor (some 540) = (.error, alldayEditor) ∧
    (_validate_start_date alldayEditor (some 540)).2._startdt.timeMethod = some 0 ∧
    (_validate_end_date alldayEditor (some 540)).2._enddt.timeMethod = some 0 :=
  C3_time_validation_on_dateonly alldayEditor 540 (by decide) (by decide)

/-- Propositional form of the kind discipline. -/
lemma kindsOk_iff (s : StartEndEditor) : kindsOk s = true ↔
    (s.allday = true ∨
      (s._startdt.isDatetime = true ∧ s._enddt.isDatetime = true)) := by
  simp [kindsOk, Bool.or_eq_true, Bool.and_eq_true]

/-- Replacing the raw start with a datetime keeps the kind discipline. -/
lemma kindsOk_update_start {s : StartEndEditor} {m : Moment}
    (h : kindsOk s = true) (hm : m.isDatetime = true) :
    kindsOk { s with _startdt := m } = true := by
  rw [kindsOk_iff] at h ⊢
  rcases h with h | ⟨_, h2⟩
  · exact Or.inl h
  · exact Or.inr ⟨hm, h2⟩

/-- Replacing the raw end with a datetime keeps the kind discipline. -/
lemma kindsOk_update_end {s : StartEndEditor} {m : Moment}
    (h : kindsOk s = true) (hm : m.isDatetime = true) :
    kindsOk { s with _enddt := m } = true := by
  rw [kindsOk_iff] at h ⊢
  rcases h with h | ⟨h1, _⟩
  · exact Or.inl h
  · exact Or.inr ⟨h1, hm⟩

/-- Every operation preserves the kind discipline: timed mode always
holds datetimes in both raw slots. -/
lemma kindsOk_applyOp (s : StartEndEditor) (o : Op) (h : kindsOk s = true) :
    kindsOk (applyOp s o) = true := by
  cases o with
  | vStartTime p =>
    rcases p with _ | v
    · exact h
    · rcases hd : s._startdt.dateMethod with _ | d
      · simpa [applyOp, _validate_start_time, hd] using h
      · simp only [applyOp, _validate_start_time, hd]
        exact kindsOk_update_start h rfl
  | vStartDate p =>
    rcases p with _ | v
    · exact h
    · simp only [applyOp, _validate_start_date]
      exact kindsOk_update_start h rfl
  | vEndTime p =>
    rcases p with _ | v
    · exact h
    · rcases hd : s._enddt.dateMethod with _ | d
      · simpa [applyOp, _validate_end_time, hd] using h
      · simp only [applyOp, _validate_end_time, hd]
        exact kindsOk_update_end h rfl
  | vEndDate p =>
    rcases p with _ | v
    · exact h
    · simp only [applyOp, _validate_end_date]
      exact kindsOk_update_end h rfl
  | tAllday b =>
    rw [kindsOk_iff] at h
    cases hA : s.allday
    · rcases h with hcontra | ⟨h1, h2⟩
      case inl => rw [hA] at hcontra; exact absurd hcontra (by decide)
      cases b
      · simp [applyOp, toggle_allday, hA]
        rw [kindsOk_iff]
        exact Or.inr ⟨h1, h2⟩
      · simp [applyOp, toggle_allday, hA, Moment.dateMethod_of_isDatetime h1,
          Moment.dateMethod_of_isDatetime h2]
        rw [kindsOk_iff]
        exact Or.inl rfl
    · cases b
      · simp [applyOp, toggle_allday, hA]
        rw [kindsOk_iff]
        exact Or.inr ⟨rfl, rfl⟩
      · simp [applyOp, toggle_allday, hA]
        rw [kindsOk_iff]
        exact Or.inl rfl
  | tTz z b =>
    cases hT : s._tz_state
    · cases b
      · simpa [applyOp, toggle_tz, hT] using h
      · simp only [applyOp, toggle_tz, hT]
        rcases hS : s._startdt.astimezone z with _ | st
        · simpa [hS] using h
        · rcases hE : s._enddt.astimezone z with _ | en
          all_goals simp only [hS, hE, Bool.not_false, Bool.true_and, if_true]
          · exact kindsOk_update_start h (Moment.astimezone_isDatetime hS)
          · have h1 := kindsOk_update_start h (Moment.astimezone_isDatetime hS)
            have h2 := kindsOk_update_end h1 (Moment.astimezone_isDatetime hE)
            rw [kindsOk_iff] at h2 ⊢
            exact h2
    · cases b
      · simp only [applyOp, toggle_tz, hT]
        rcases hS : s._startdt.astimezone s.default_timezone with _ | st
        · simpa [hS] using h
        · rcases hE : s._enddt.astimezone s.default_timezone with _ | en
          all_goals simp only [hS, hE, Bool.not_true, Bool.false_and,
            Bool.not_false, Bool.true_and, if_false, if_true]
          · exact kindsOk_update_start h (Moment.astimezone_isDatetime hS)
          · have h1 := kindsOk_update_start h (Moment.astimezone_isDatetime hS)
            have h2 := kindsOk_update_end h1 (Moment.astimezone_isDatetime hE)
            rw [kindsOk_iff] at h2 ⊢
            exact h2
      · simpa [applyOp, toggle_tz, hT] using h

/-- Sequences of operations preserve the kind discipline. -/
lemma kindsOk_applyOps (s : StartEndEditor) (ops : List Op)
    (h : kindsOk s = true) : kindsOk (applyOps s ops) = true := by
  induction ops generalizing s with
  | nil => exact h
  | cons o rest ih => exact ih _ (kindsOk_applyOp s o h)

/-- A kind-consistent initial pair constructs a state satisfying the
kind discipline. -/
lemma kindsOk_init (start endm : Moment) (dtz : Tz)
    (hwf : start.isDatetime = endm.isDatetime) :
    kindsOk (init start endm dtz) = true := by
  rw [kindsOk_iff]
  cases hS : start.isDatetime
  · exact Or.inl (by simp [init, hS])
  · exact Or.inr ⟨by simpa [init] using hS, by simp [init, ← hwf, hS]⟩

/-- C4: after every sequence of operations from a kind-consistent
initial pair, the projected start and end are date-only — without
time-of-day or attached zone — whenever `allday` is true; they are both
datetimes whose effective zone is their own attached zone or else the
default timezone whenever `allday` is false; and they are always of the
same representation kind. -/
theorem C4_representation_invariant (start endm : Moment) (dtz : Tz) (ops : List Op)
    (hwf : start.isDatetime = endm.isDatetime) :
    ((runOps start endm dtz ops).allday = true →
      ((runOps start endm dtz ops).startdt.isDatetime = false ∧
       (runOps start endm dtz ops).startdt.timeMethod = none ∧
       (runOps start endm dtz ops).startdt.tzinfo = none ∧
       (runOps start endm dtz ops).enddt.isDatetime = false ∧
       (runOps start endm dtz ops).enddt.timeMethod = none ∧
       (runOps start endm dtz ops).enddt.tzinfo = none)) ∧
    ((runOps start endm dtz ops).allday = false →
      ((runOps start endm dtz ops).startdt.isDatetime = true ∧
       (runOps start endm dtz ops).enddt.isDatetime = true ∧
       (runOps start endm dtz ops).timezone_start =
         ((runOps start endm dtz ops).startdt.tzinfo).getD
           (runOps start endm dtz ops).default_timezone ∧
       (runOps start endm dtz ops).timezone_end =
         ((runOps start endm dtz ops).enddt.tzinfo).getD
           (runOps start endm dtz ops).default_timezone)) ∧
    (runOps start endm dtz ops).startdt.isDatetime =
      (runOps start endm dtz ops).enddt.isDatetime := by
  have hk : kindsOk (runOps start endm dtz ops) = true :=
    kindsOk_applyOps _ ops (kindsOk_init start endm dtz hwf)
  refine ⟨?_, ?_, ?_⟩
  · intro hA
    have h1 := startdt_of_allday hA
    have h2 := enddt_of_allday hA
    obtain ⟨h3, h4⟩ := Moment.dateonly_fields h1
    obtain ⟨h5, h6⟩ := Moment.dateonly_fields h2
    exact ⟨h1, h3, h4, h2, h5, h6⟩
  · intro hA
    rw [kindsOk_iff] at hk
    rcases hk with hk | ⟨hk1, hk2⟩
    · rw [hA] at hk; exact absurd hk (by decide)
    · refine ⟨?_, ?_, rfl, rfl⟩
      · rw [startdt_of_timed hA]; exact hk1
      · rw [enddt_of_timed hA]; exact hk2
  · cases hA : (runOps start endm dtz ops).allday
    · rw [kindsOk_iff] at hk
      rcases hk with hk | ⟨hk1, hk2⟩
      · rw [hA] at hk; exact absurd hk (by decide)
      · rw [startdt_of_timed hA, enddt_of_timed hA, hk1, hk2]
    · rw [startdt_of_allday hA, enddt_of_allday hA]

/-- A concrete timezone-aware start moment, 2024-01-01 09:00 at
UTC-05:00. -/
def timedStart : Moment := .aware (toordinal 2024 1 1 * 1440 + 540) ⟨0, -300⟩

/-- A concrete timezone-aware end moment, 2024-01-01 10:00 at
UTC-05:00. -/
def timedEnd : Moment := .aware (toordinal 2024 1 1 * 1440 + 600) ⟨0, -300⟩

/-- A concrete operation sequence: toggle to all-day, edit the start
date to 2024-02-02, toggle back to timed. -/
def opsSample : List Op :=
  [.tAllday true, .vStartDate (some (toordinal 2024 2 2 * 1440)), .tAllday false]

/-- Witness for C4: after the concrete run (which ends in timed mode)
both projected moments are datetimes with their effective zone the
attached-or-default one. -/
theorem C4_representation_invariant_witness :
    (runOps timedStart timedEnd ⟨0, -300⟩ opsSample).startdt.isDatetime = true ∧
    (runOps timedStart timedEnd ⟨0, -300⟩ opsSample).enddt.isDatetime = true ∧
    (runOps timedStart timedEnd ⟨0, -300⟩ opsSample).timezone_start =
      ((runOps timedStart timedEnd ⟨0, -300⟩ opsSample).startdt.tzinfo).getD
        (runOps timedStart timedEnd ⟨0, -300⟩ opsSample).default_timezone ∧
    (runOps timedStart timedEnd ⟨0, -300⟩ opsSample).timezone_end =
      ((runOps timedStart timedEnd ⟨0, -300⟩ opsSample).enddt.tzinfo).getD
        (runOps timedStart timedEnd ⟨0, -300⟩ opsSample).default_timezone :=
  (C4_representation_invariant timedStart timedEnd ⟨0, -300⟩ opsSample
    (by decide)).2.1 (by decide)
